import Mathlib

/-!
Shallow embedding of `datasets/coco.py`: the COCO annotation normalizer
(`ConvertCocoPolysToMask.__call__`), the dataset adapter
(`CocoDetection.__getitem__`), the augmentation pipeline factory
(`make_coco_transforms`) and the `build` entry point.

Modelling conventions: machine floats are rationals; per-object tensor axes
are lists; Python dicts with optional keys are structures with `Option`
fields; a raised Python exception is `Except.error` of a `PyErr`.
-/

attribute [local semireducible] Rat.add Rat.mul Rat.inv Rat.sub

deriving instance DecidableEq for Except

namespace Coco

/-- Python exception kinds that this module can raise. -/
inductive PyErr where
  | keyError
  | valueError
  | runtimeError
  | indexError
  | assertionError
  deriving DecidableEq, Repr

/-- One raw COCO annotation record. `bbox` is (x, y, width, height).
Optional fields model dict keys that may be absent. A segmentation is kept as
an opaque code: its pixel content is decoded by the external pycocotools
library and never inspected in this file. -/
structure Anno where
  bbox : ℚ × ℚ × ℚ × ℚ
  category_id : ℤ
  segmentation : Option ℕ
  iscrowd : Option ℤ
  area : ℚ
  keypoints : Option (List ℚ)
  deriving DecidableEq, Repr

/-- A decoded instance mask: pycocotools decodes segmentation `seg` at
resolution `height × width`; the pixel content is external and not modelled. -/
structure Mask where
  seg : ℕ
  height : ℕ
  width : ℕ
  deriving DecidableEq, Repr

/-- Function `convert_coco_poly_to_mask` (lines 55-70): one mask per object,
decoded at (height, width); an empty input yields an empty mask stack. -/
def convert_coco_poly_to_mask (segmentations : List ℕ) (height width : ℕ) :
    List Mask :=
  segmentations.map fun s => ⟨s, height, width⟩

/-- The canonical target record built by `ConvertCocoPolysToMask.__call__`;
optional dict keys are `Option` fields. -/
structure Target where
  boxes : List (ℚ × ℚ × ℚ × ℚ)
  labels : List ℤ
  masks : Option (List Mask)
  image_id : ℤ
  keypoints : Option (List (List (ℚ × ℚ × ℚ)))
  area : List ℚ
  iscrowd : List ℤ
  orig_size : ℕ × ℕ
  size : ℕ × ℕ
  deriving DecidableEq, Repr

/-- Computable maximum on rationals. -/
def rmax (a b : ℚ) : ℚ := if a ≤ b then b else a

/-- Computable minimum on rationals. -/
def rmin (a b : ℚ) : ℚ := if a ≤ b then a else b

/-- Function torch.clamp on one scalar: the lower bound is applied first, then
the upper bound. -/
def clamp (v lo hi : ℚ) : ℚ := rmin (rmax v lo) hi

/-- Lines 88-92: one bbox row, converted from (x, y, w, h) to corner format by
x2 = x + w, y2 = y + h, then x-coordinates clamped to [0, w] and y-coordinates
clamped to [0, h]. -/
def convertBox (b : ℚ × ℚ × ℚ × ℚ) (w h : ℕ) : ℚ × ℚ × ℚ × ℚ :=
  (clamp b.1 0 w, clamp b.2.1 0 h,
   clamp (b.1 + b.2.2.1) 0 w, clamp (b.2.1 + b.2.2.2) 0 h)

/-- Line 107: a box is kept iff y2 > y1 and x2 > x1. -/
def keepPred (b : ℚ × ℚ × ℚ × ℚ) : Bool :=
  decide (b.2.2.2 > b.2.1) && decide (b.2.2.1 > b.1)

/-- Boolean-mask indexing `t[keep]` along the leading per-object axis. -/
def applyKeep : List Bool → List α → List α
  | k :: ks, x :: xs => if k then x :: applyKeep ks xs else applyKeep ks xs
  | _, _ => []

/-- Line 86: drop the records whose iscrowd key is present and truthy. -/
def crowdFilter (anno : List Anno) : List Anno :=
  anno.filter fun o => decide (o.iscrowd = none ∨ o.iscrowd = some 0)

/-- Line 96: the segmentation key is looked up on every surviving record; a
missing key raises KeyError. -/
def getSegs : List Anno → Except PyErr (List ℕ)
  | [] => .ok []
  | o :: rest =>
    match o.segmentation with
    | none => .error .keyError
    | some s => (getSegs rest).map fun l => s :: l

/-- Line 101: the keypoints key is looked up on every surviving record; a
missing key raises KeyError. -/
def getKps : List Anno → Except PyErr (List (List ℚ))
  | [] => .ok []
  | o :: rest =>
    match o.keypoints with
    | none => .error .keyError
    | some k => (getKps rest).map fun l => k :: l

/-- Group one flat keypoint row into (x, y, visibility) triples. -/
def chunk3 : List ℚ → List (ℚ × ℚ × ℚ)
  | a :: b :: c :: rest => (a, b, c) :: chunk3 rest
  | _ => []

/-- Lines 102-105: torch.as_tensor of the row list (which requires rectangular
rows) followed by view(num_keypoints, -1, 3) whenever the row count N is
nonzero. The view requires the common row length to be divisible by 3; a zero
row length is fine — the known dimensions have product 3N > 0, so the inferred
dimension is 0 and the result has shape (N, 0, 3). -/
def viewKps (rows : List (List ℚ)) : Except PyErr (List (List (ℚ × ℚ × ℚ))) :=
  match rows with
  | [] => .ok []
  | r0 :: _ =>
    if rows.all (fun r => r.length == r0.length) then
      if r0.length % 3 = 0 then .ok (rows.map chunk3)
      else .error .runtimeError
    else .error .valueError

/-- Lines 95-97: the mask stack is built iff return_masks is set. -/
def masksStage (return_masks : Bool) (anno : List Anno) (w h : ℕ) :
    Except PyErr (Option (List Mask)) :=
  if return_masks then
    match getSegs anno with
    | .error e => .error e
    | .ok segs => .ok (some (convert_coco_poly_to_mask segs h w))
  else .ok none

/-- Whether the first record of a list carries the keypoints key; this is the
exact guard the code evaluates on line 100. -/
def headHasKps : List Anno → Bool
  | [] => false
  | o :: _ => o.keypoints.isSome

/-- Lines 99-105: the keypoint stack is built iff the guard
`anno and "keypoints" in anno[0]` holds, i.e. iff the crowd-filtered list is
non-empty and its first record has the keypoints key. -/
def kpsStage (anno : List Anno) :
    Except PyErr (Option (List (List (ℚ × ℚ × ℚ)))) :=
  if headHasKps anno then
    match getKps anno with
    | .error e => .error e
    | .ok rows =>
      match viewKps rows with
      | .error e => .error e
      | .ok kps => .ok (some kps)
  else .ok none

/-- Lines 107-131: the keep-mask is computed from the converted boxes and
applied to every per-object array; area is a passthrough of the source
records and iscrowd defaults to 0 when absent; orig_size and size are both
(h, w). -/
def mkTarget (w h : ℕ) (image_id : ℤ) (anno : List Anno)
    (masks? : Option (List Mask))
    (kps? : Option (List (List (ℚ × ℚ × ℚ)))) : Target :=
  let boxes := anno.map fun o => convertBox o.bbox w h
  let keep := boxes.map keepPred
  { boxes := applyKeep keep boxes
    labels := applyKeep keep (anno.map fun o => o.category_id)
    masks := masks?.map (applyKeep keep)
    image_id := image_id
    keypoints := kps?.map (applyKeep keep)
    area := applyKeep keep (anno.map fun o => o.area)
    iscrowd := applyKeep keep (anno.map fun o => o.iscrowd.getD 0)
    orig_size := (h, w)
    size := (h, w) }

/-- Method `ConvertCocoPolysToMask.__call__` (lines 77-133) on an image of
size (w, h): crowd filtering, box conversion and clamping, the optional mask
and keypoint stages in program order, then the keep-mask and the assembled
target record. -/
def convertCall (return_masks : Bool) (w h : ℕ) (image_id : ℤ)
    (anno0 : List Anno) : Except PyErr Target :=
  match masksStage return_masks (crowdFilter anno0) w h with
  | .error e => .error e
  | .ok masks? =>
    match kpsStage (crowdFilter anno0) with
    | .error e => .error e
    | .ok kps? => .ok (mkTarget w h image_id (crowdFilter anno0) masks? kps?)

/-- A record survives normalization iff its converted, clamped box is strictly
non-degenerate. -/
def survives (w h : ℕ) (o : Anno) : Bool := keepPred (convertBox o.bbox w h)

/-- The records that survive both the crowd filter and the degenerate-box
filter, in their original order. -/
def survivors (w h : ℕ) (anno0 : List Anno) : List Anno :=
  (crowdFilter anno0).filter (survives w h)

/-- Function `box_xyxy_to_cxcywh` — Modelled from the spec: the file
`util/box_ops.py` is imported by the code but is not part of the sources
here; per the spec it converts corner format (x1, y1, x2, y2) to center-size
format (cx, cy, w, h). -/
def box_xyxy_to_cxcywh (b : ℚ × ℚ × ℚ × ℚ) : ℚ × ℚ × ℚ × ℚ :=
  ((b.1 + b.2.2.1) / 2, (b.2.1 + b.2.2.2) / 2, b.2.2.1 - b.1, b.2.2.2 - b.2.1)

/-- Elementwise division of one box row by the fixed constant 640.0
(line 49). -/
def div640 (b : ℚ × ℚ × ℚ × ℚ) : ℚ × ℚ × ℚ × ℚ :=
  (b.1 / 640, b.2.1 / 640, b.2.2.1 / 640, b.2.2.2 / 640)

/-- Cast of one float scalar to int64 (line 47): truncation toward zero. -/
def truncQ (q : ℚ) : ℤ := q.num.tdiv q.den

/-- A PIL image: its (width, height) size plus opaque pixel content. -/
structure Image where
  width : ℕ
  height : ℕ
  pixels : ℕ
  deriving DecidableEq, Repr

/-- One row of the (N, 5) array handed to the augmentation pipeline:
x1, y1, x2, y2 and the label appended as a fifth column (line 44). -/
abbrev Box5 := ℚ × ℚ × ℚ × ℚ × ℚ

/-- One realized run of an albumentations pipeline: external stochastic code,
modelled as an arbitrary joint function on the image and the box array. -/
def TransformFn := Image → List Box5 → Image × List Box5

/-- Expression np.hstack((boxes, labels[:, None])) on line 44. -/
def hstack5 (boxes : List (ℚ × ℚ × ℚ × ℚ)) (labels : List ℤ) : List Box5 :=
  (boxes.zip labels).map fun p => (p.1.1, p.1.2.1, p.1.2.2.1, p.1.2.2.2, (p.2 : ℚ))

/-- One indexed entry of the external COCO collaborator: the image, its raw
annotation list, and the image id from the index-to-id mapping. -/
structure CocoEntry where
  img : Image
  anns : List Anno
  id : ℤ

/-- The `CocoDetection` dataset object: indexable entries, the optional
transform pipeline, and the construction-time mask flag. -/
structure CocoDetectionT where
  entries : List CocoEntry
  transforms : Option TransformFn
  return_masks : Bool

/-- Method `CocoDetection.__getitem__` (lines 30-51). An out-of-range index
fails with the collaborator's own error. When a pipeline is supplied, the
boxes and labels are rebuilt from the pipeline's (N, 5) output and the boxes
re-encoded to center-size format divided by 640; slicing an empty output
tensor with [:, :4] raises IndexError. Without a pipeline the prepared
target is returned as is. -/
def getitem (ds : CocoDetectionT) (idx : ℕ) : Except PyErr (Image × Target) :=
  match ds.entries.get? idx with
  | none => .error .indexError
  | some e =>
    match convertCall ds.return_masks e.img.width e.img.height e.id e.anns with
    | .error err => .error err
    | .ok target =>
      match ds.transforms with
      | none => .ok (e.img, target)
      | some tf =>
        match tf e.img (hstack5 target.boxes target.labels) with
        | (_, []) => .error .indexError
        | (img2, outB) =>
          .ok (img2,
            { target with
              boxes := outB.map fun r =>
                div640 (box_xyxy_to_cxcywh (r.1, r.2.1, r.2.2.1, r.2.2.2.1))
              labels := outB.map fun r => truncQ r.2.2.2.2 })

/-- One albumentations stage together with its configured parameters. -/
inductive Stage where
  | resize (height width : ℕ)
  | normalize (mean std : List ℚ)
  | toTensorV2
  | verticalFlip (p : ℚ)
  | horizontalFlip (p : ℚ)
  | sharpen (alphaLo alphaHi p : ℚ)
  | randomBrightnessContrast (brightnessLimit contrastLimit p : ℚ)
  | colorJitter (p satLo satHi hueLo hueHi contrastLo contrastHi brightnessLo brightnessHi : ℚ)
  | randomGamma (gammaLo gammaHi : ℕ) (p : ℚ)
  | gaussNoise (varLo varHi : ℕ) (mean p : ℚ)
  | clahe (p : ℚ)
  | compose (stages : List Stage)

mutual

/-- Whether a stage draws from the augmentation library's random source. -/
def isRandom : Stage → Bool
  | .resize _ _ => false
  | .normalize _ _ => false
  | .toTensorV2 => false
  | .verticalFlip _ => true
  | .horizontalFlip _ => true
  | .sharpen _ _ _ => true
  | .randomBrightnessContrast _ _ _ => true
  | .colorJitter _ _ _ _ _ _ _ _ _ => true
  | .randomGamma _ _ _ => true
  | .gaussNoise _ _ _ _ => true
  | .clahe _ => true
  | .compose stages => isRandomList stages

/-- Whether any stage of a list is random. -/
def isRandomList : List Stage → Bool
  | [] => false
  | s :: rest => isRandom s || isRandomList rest

end

/-- An A.Compose pipeline: the ordered stage list and the bbox_params box
convention, when one was configured. -/
structure Pipeline where
  stages : List Stage
  bboxFormat : Option String

/-- Lines 138-143: the validation pipeline — resize to 640 by 640, per-channel
mean/std normalization, tensor conversion; no bbox_params argument. -/
def trans_val : Pipeline :=
  ⟨[.resize 640 640,
    .normalize [485/1000, 456/1000, 406/1000] [229/1000, 224/1000, 225/1000],
    .toTensorV2], none⟩

/-- Lines 145-164: the training pipeline; the whole validation pipeline is
nested as its terminal stage, and bbox_params fixes the pascal_voc absolute
corner convention. -/
def trans_train : Pipeline :=
  ⟨[.verticalFlip (1/2),
    .horizontalFlip (1/2),
    .sharpen (3/10) (3/10) (1/2),
    .randomBrightnessContrast (3/20) (3/20) (2/5),
    .colorJitter (7/10) (1/100) 3 (-(3/10)) (3/10) 1 5 1 (3/2),
    .randomGamma 80 120 (1/2),
    .gaussNoise 1 30 0 (1/2),
    .clahe (1/2),
    .compose trans_val.stages], some "pascal_voc"⟩

/-- Function `make_coco_transforms` (lines 136-172): returns the train or val
pipeline, and raises ValueError on any other mode string. -/
def make_coco_transforms (image_set : String) : Except PyErr Pipeline :=
  if image_set = "train" then .ok trans_train
  else if image_set = "val" then .ok trans_val
  else .error .valueError

/-- The dataset configuration assembled by `build`. -/
structure DatasetCfg where
  img_folder : String
  ann_file : String
  transforms : Pipeline
  return_masks : Bool

/-- The PATHS dict lookup inside `build` (lines 179-185): the dict has
exactly the keys train and val; any other image_set raises KeyError. -/
def PATHS (root image_set : String) : Except PyErr (String × String) :=
  if image_set = "train" then
    .ok (root ++ "/train2017", root ++ "/annotations/instances_train2017.json")
  else if image_set = "val" then
    .ok (root ++ "/val2017", root ++ "/annotations/instances_val2017.json")
  else .error .keyError

/-- Function `build` (lines 175-185): assert that the dataset root exists,
look the image_set up in PATHS, then construct the dataset with
`make_coco_transforms image_set` and the mask flag. -/
def build (coco_path : String) (rootExists return_masks : Bool)
    (image_set : String) : Except PyErr DatasetCfg :=
  if rootExists then
    match PATHS coco_path image_set with
    | .error e => .error e
    | .ok p =>
      match make_coco_transforms image_set with
      | .error e => .error e
      | .ok tr => .ok ⟨p.1, p.2, tr, return_masks⟩
  else .error .assertionError

/-- Fixture: the annotation record of the end-to-end example in the spec. -/
def annoEx1 : Anno := ⟨(100, 50, 200, 150), 3, none, some 0, 30000, none⟩

/-- Fixture: the expected target for annoEx1 on an 800 by 600 image. -/
def targetEx1 : Target :=
  ⟨[(100, 50, 300, 200)], [3], none, 1, none, [30000], [0], (600, 800), (600, 800)⟩

/-- Fixture: an annotation whose x2 = 795 + 50 = 845 overflows an 800-wide
image. -/
def annoEx2 : Anno := ⟨(795, 0, 50, 50), 1, none, some 0, 2500, none⟩

/-- Fixture: the expected target for annoEx2 on an 800 by 600 image: x2 is
clamped from 845 to 800. -/
def targetEx2 : Target :=
  ⟨[(795, 0, 800, 50)], [1], none, 1, none, [2500], [0], (600, 800), (600, 800)⟩

/-- Fixture: a non-crowd record without keypoints. -/
def annoK1 : Anno := ⟨(10, 10, 20, 20), 1, none, some 0, 400, none⟩

/-- Fixture: a non-crowd record carrying one keypoint triple. -/
def annoK2 : Anno := ⟨(30, 30, 40, 40), 2, none, some 0, 1600, some [1, 2, 3]⟩

/-- Fixture: the expected target for the list [annoK2] alone. -/
def targetK2 : Target :=
  ⟨[(30, 30, 70, 70)], [2], none, 7, some [[(1, 2, 3)]], [1600], [0],
   (600, 800), (600, 800)⟩

/-- Fixture: a record with an empty keypoints list and a zero-width,
zero-height bbox, so it carries the keypoints key yet no object survives the
keep-mask. -/
def annoKZ : Anno := ⟨(10, 10, 0, 0), 1, none, some 0, 0, some []⟩

/-- Fixture: the expected target for the list [annoKZ]: zero surviving
objects and the empty keypoint stack, produced without error. -/
def targetKZ : Target :=
  ⟨[], [], none, 7, some [], [], [], (600, 800), (600, 800)⟩

/-- Fixture: a crowd record (iscrowd = 1). -/
def annoCrowd : Anno := ⟨(5, 5, 10, 10), 4, some 2, some 1, 100, none⟩

/-- Fixture: an identity run of a transform pipeline. -/
def tfId : TransformFn := fun img bs => (img, bs)

/-- Fixture: an 800 by 600 image. -/
def imgEx : Image := ⟨800, 600, 0⟩

/-- Fixture: a one-entry dataset with no transform pipeline. -/
def dsNone : CocoDetectionT := ⟨[⟨imgEx, [annoEx1], 1⟩], none, false⟩

/-- Fixture: the same one-entry dataset with the identity pipeline run. -/
def dsTf : CocoDetectionT := ⟨[⟨imgEx, [annoEx1], 1⟩], some tfId, false⟩

/-- Fixture: the expected target after the identity pipeline run and the
center-size re-encoding by 640. -/
def targetTf : Target :=
  ⟨[(5/16, 25/128, 5/16, 15/64)], [3], none, 1, none, [30000], [0],
   (600, 800), (600, 800)⟩

/-- The target record produced when no record survives: empty per-object
arrays, an empty mask stack iff masks were requested, no keypoints key. -/
def emptyTarget (return_masks : Bool) (w h : ℕ) (image_id : ℤ) : Target :=
  ⟨[], [], if return_masks then some [] else none, image_id, none, [], [],
   (h, w), (h, w)⟩

theorem rmax_eq (a b : ℚ) : rmax a b = max a b := (max_def a b).symm

theorem rmin_eq (a b : ℚ) : rmin a b = min a b := (min_def a b).symm

theorem clamp_le_hi (v : ℚ) (lo hi : ℚ) : clamp v lo hi ≤ hi := by
  unfold clamp
  rw [rmin_eq]
  exact min_le_right _ _

theorem lo_le_clamp (v : ℚ) {lo hi : ℚ} (h : lo ≤ hi) : lo ≤ clamp v lo hi := by
  unfold clamp
  rw [rmin_eq, rmax_eq]
  exact le_min (le_max_right _ _) h

theorem applyKeep_nil_mask (xs : List α) : applyKeep [] xs = [] := by
  cases xs <;> rfl

theorem applyKeep_cons (k : Bool) (ks : List Bool) (x : α) (xs : List α) :
    applyKeep (k :: ks) (x :: xs)
      = if k then x :: applyKeep ks xs else applyKeep ks xs := rfl

theorem applyKeep_map_self {β : Type _} (p : α → Bool) (g : α → β) :
    ∀ xs : List α, applyKeep (xs.map p) (xs.map g) = (xs.filter p).map g
  | [] => rfl
  | x :: xs => by
    rw [List.map_cons, List.map_cons, applyKeep_cons, List.filter_cons]
    cases hpx : p x <;> simp [applyKeep_map_self p g xs]

theorem applyKeep_length_congr {β : Type _} (ks : List Bool) :
    ∀ (xs : List α) (ys : List β), xs.length = ys.length →
      (applyKeep ks xs).length = (applyKeep ks ys).length := by
  induction ks with
  | nil => intro xs ys _; rw [applyKeep_nil_mask, applyKeep_nil_mask]; rfl
  | cons k ks ih =>
    intro xs ys h
    cases xs with
    | nil =>
      cases ys with
      | nil => rfl
      | cons y ys => simp at h
    | cons x xs =>
      cases ys with
      | nil => simp at h
      | cons y ys =>
        have h' : xs.length = ys.length := by simpa using h
        cases k <;> simp [applyKeep_cons, ih xs ys h']

theorem applyKeep_all_false (ks : List Bool) (hall : ∀ k ∈ ks, k = false) :
    ∀ xs : List α, applyKeep ks xs = [] := by
  induction ks with
  | nil => intro xs; exact applyKeep_nil_mask xs
  | cons k ks ih =>
    intro xs
    cases xs with
    | nil => rfl
    | cons x xs =>
      have hk : k = false := hall k (List.mem_cons_self k ks)
      subst hk
      rw [applyKeep_cons, if_neg Bool.false_ne_true]
      exact ih (fun k2 hk2 => hall k2 (List.mem_cons_of_mem _ hk2)) xs

theorem viewKps_ok (rows : List (List ℚ))
    (hrect : ∀ r ∈ rows, ∀ r2 ∈ rows, r.length = r2.length)
    (hdiv : ∀ r ∈ rows, r.length % 3 = 0) :
    viewKps rows = .ok (rows.map chunk3) := by
  unfold viewKps
  split
  · rfl
  next r0 rest =>
    have h1 : ((r0 :: rest).all fun r => r.length == r0.length) = true := by
      apply List.all_eq_true.mpr
      intro r hr
      exact beq_iff_eq.mpr (hrect r hr r0 (List.mem_cons_self _ _))
    rw [if_pos h1, if_pos (hdiv r0 (List.mem_cons_self _ _))]

theorem getSegs_length : ∀ {anno : List Anno} {segs : List ℕ},
    getSegs anno = .ok segs → segs.length = anno.length := by
  intro anno
  induction anno with
  | nil => intro segs h; cases h; rfl
  | cons o rest ih =>
    intro segs h
    unfold getSegs at h
    cases ho : o.segmentation with
    | none => rw [ho] at h; cases h
    | some s =>
      rw [ho] at h
      cases hr : getSegs rest with
      | error e => rw [hr] at h; cases h
      | ok l =>
        rw [hr] at h
        cases h
        simp [ih hr]

theorem getKps_length : ∀ {anno : List Anno} {rows : List (List ℚ)},
    getKps anno = .ok rows → rows.length = anno.length := by
  intro anno
  induction anno with
  | nil => intro rows h; cases h; rfl
  | cons o rest ih =>
    intro rows h
    unfold getKps at h
    cases ho : o.keypoints with
    | none => rw [ho] at h; cases h
    | some k =>
      rw [ho] at h
      cases hr : getKps rest with
      | error e => rw [hr] at h; cases h
      | ok l =>
        rw [hr] at h
        cases h
        simp [ih hr]

theorem viewKps_length {rows : List (List ℚ)} {kps : List (List (ℚ × ℚ × ℚ))}
    (h : viewKps rows = .ok kps) : kps.length = rows.length := by
  unfold viewKps at h
  split at h
  · cases h; rfl
  · split at h
    · split at h
      · cases h; simp
      · cases h
    · cases h

theorem masksStage_isSome {rm : Bool} {anno : List Anno} {w h : ℕ}
    {m? : Option (List Mask)} (hm : masksStage rm anno w h = .ok m?) :
    m?.isSome = rm := by
  unfold masksStage at hm
  cases rm with
  | false => simp at hm; rw [← hm]; rfl
  | true =>
    simp only [if_pos] at hm
    split at hm
    · cases hm
    · cases hm; rfl

theorem masksStage_some_length {rm : Bool} {anno : List Anno} {w h : ℕ}
    {m : List Mask} (hm : masksStage rm anno w h = .ok (some m)) :
    m.length = anno.length := by
  unfold masksStage at hm
  cases rm with
  | false => simp at hm
  | true =>
    simp only [if_pos] at hm
    split at hm
    · cases hm
    next segs hs =>
      cases hm
      simp [convert_coco_poly_to_mask, getSegs_length hs]

theorem kpsStage_isSome {anno : List Anno}
    {k? : Option (List (List (ℚ × ℚ × ℚ)))} (hk : kpsStage anno = .ok k?) :
    k?.isSome = headHasKps anno := by
  unfold kpsStage at hk
  by_cases ho : headHasKps anno = true
  · rw [if_pos ho] at hk
    split at hk
    · cases hk
    · split at hk
      · cases hk
      · cases hk; simp [ho]
  · rw [if_neg ho] at hk
    cases hk
    simp [Bool.not_eq_true] at ho
    simp [ho]

theorem kpsStage_some_length {anno : List Anno} {k : List (List (ℚ × ℚ × ℚ))}
    (hk : kpsStage anno = .ok (some k)) : k.length = anno.length := by
  unfold kpsStage at hk
  by_cases ho : headHasKps anno = true
  · rw [if_pos ho] at hk
    split at hk
    · cases hk
    next rows hr =>
      split at hk
      · cases hk
      next kps hv =>
        cases hk
        rw [viewKps_length hv, getKps_length hr]
  · rw [if_neg ho] at hk
    cases hk

theorem convertCall_ok_elim {rm : Bool} {w h : ℕ} {iid : ℤ}
    {anno0 : List Anno} {t : Target}
    (hok : convertCall rm w h iid anno0 = .ok t) :
    ∃ m? k?, masksStage rm (crowdFilter anno0) w h = .ok m? ∧
      kpsStage (crowdFilter anno0) = .ok k? ∧
      t = mkTarget w h iid (crowdFilter anno0) m? k? := by
  unfold convertCall at hok
  split at hok
  · cases hok
  next m? hm =>
    split at hok
    · cases hok
    next k? hk =>
      cases hok
      exact ⟨m?, k?, hm, hk, rfl⟩

theorem mkTarget_applyKeep_map {β : Type _} (w h : ℕ) (anno : List Anno)
    (g : Anno → β) :
    applyKeep ((anno.map fun o => convertBox o.bbox w h).map keepPred)
        (anno.map g)
      = (anno.filter (survives w h)).map g := by
  rw [List.map_map]
  exact applyKeep_map_self _ _ anno

theorem mkTarget_boxes (w h : ℕ) (iid : ℤ) (anno : List Anno)
    (m? : Option (List Mask)) (k? : Option (List (List (ℚ × ℚ × ℚ)))) :
    (mkTarget w h iid anno m? k?).boxes
      = (anno.filter (survives w h)).map fun o => convertBox o.bbox w h :=
  mkTarget_applyKeep_map w h anno _

theorem mkTarget_labels (w h : ℕ) (iid : ℤ) (anno : List Anno)
    (m? : Option (List Mask)) (k? : Option (List (List (ℚ × ℚ × ℚ)))) :
    (mkTarget w h iid anno m? k?).labels
      = (anno.filter (survives w h)).map fun o => o.category_id :=
  mkTarget_applyKeep_map w h anno _

theorem mkTarget_area (w h : ℕ) (iid : ℤ) (anno : List Anno)
    (m? : Option (List Mask)) (k? : Option (List (List (ℚ × ℚ × ℚ)))) :
    (mkTarget w h iid anno m? k?).area
      = (anno.filter (survives w h)).map fun o => o.area :=
  mkTarget_applyKeep_map w h anno _

theorem mkTarget_iscrowd (w h : ℕ) (iid : ℤ) (anno : List Anno)
    (m? : Option (List Mask)) (k? : Option (List (List (ℚ × ℚ × ℚ)))) :
    (mkTarget w h iid anno m? k?).iscrowd
      = (anno.filter (survives w h)).map fun o => o.iscrowd.getD 0 :=
  mkTarget_applyKeep_map w h anno _

theorem mkTarget_boxes_raw (w h : ℕ) (iid : ℤ) (anno : List Anno)
    (m? : Option (List Mask)) (k? : Option (List (List (ℚ × ℚ × ℚ)))) :
    (mkTarget w h iid anno m? k?).boxes
      = applyKeep ((anno.map fun o => convertBox o.bbox w h).map keepPred)
          (anno.map fun o => convertBox o.bbox w h) := rfl

theorem mkTarget_masks (w h : ℕ) (iid : ℤ) (anno : List Anno)
    (m? : Option (List Mask)) (k? : Option (List (List (ℚ × ℚ × ℚ)))) :
    (mkTarget w h iid anno m? k?).masks
      = m?.map
          (applyKeep ((anno.map fun o => convertBox o.bbox w h).map keepPred)) :=
  rfl

theorem mkTarget_keypoints (w h : ℕ) (iid : ℤ) (anno : List Anno)
    (m? : Option (List Mask)) (k? : Option (List (List (ℚ × ℚ × ℚ)))) :
    (mkTarget w h iid anno m? k?).keypoints
      = k?.map
          (applyKeep ((anno.map fun o => convertBox o.bbox w h).map keepPred)) :=
  rfl

theorem optionIsSomeMap {β : Type _} (f : α → β) (x : Option α) :
    (x.map f).isSome = x.isSome := by cases x <;> rfl

theorem convertCall_masks_length {rm : Bool} {w h : ℕ} {iid : ℤ}
    {anno : List Anno} {t : Target}
    (hok : convertCall rm w h iid anno = .ok t) :
    ∀ ms, t.masks = some ms → ms.length = t.boxes.length := by
  obtain ⟨m?, k?, hm, hk, rfl⟩ := convertCall_ok_elim hok
  intro ms hms
  rw [mkTarget_masks] at hms
  cases m? with
  | none => cases hms
  | some m =>
    cases hms
    rw [mkTarget_boxes_raw]
    refine applyKeep_length_congr _ _ _ ?_
    simp [masksStage_some_length hm]

theorem convertCall_kps_length {rm : Bool} {w h : ℕ} {iid : ℤ}
    {anno : List Anno} {t : Target}
    (hok : convertCall rm w h iid anno = .ok t) :
    ∀ ks, t.keypoints = some ks → ks.length = t.boxes.length := by
  obtain ⟨m?, k?, hm, hk, rfl⟩ := convertCall_ok_elim hok
  intro ks hks
  rw [mkTarget_keypoints] at hks
  cases k? with
  | none => cases hks
  | some k =>
    cases hks
    rw [mkTarget_boxes_raw]
    refine applyKeep_length_congr _ _ _ ?_
    simp [kpsStage_some_length hk]

/-- C1: in any successful ConvertCocoPolysToMask call the per-object arrays
boxes, labels, area and iscrowd have identical length, and the mask stack and
the keypoint stack, when their keys are present, have that same length: the
keep-mask of step 7 is applied to all of them synchronously. -/
theorem claim_C1_uniform_lengths (rm : Bool) (w h : ℕ) (iid : ℤ)
    (anno : List Anno) (t : Target)
    (hok : convertCall rm w h iid anno = .ok t) :
    t.labels.length = t.boxes.length ∧
    t.area.length = t.boxes.length ∧
    t.iscrowd.length = t.boxes.length ∧
    (∀ ms, t.masks = some ms → ms.length = t.boxes.length) ∧
    (∀ ks, t.keypoints = some ks → ks.length = t.boxes.length) := by
  obtain ⟨m?, k?, hm, hk, ht⟩ := convertCall_ok_elim hok
  refine ⟨?_, ?_, ?_, convertCall_masks_length hok, convertCall_kps_length hok⟩
  · rw [ht, mkTarget_labels, mkTarget_boxes]; simp
  · rw [ht, mkTarget_area, mkTarget_boxes]; simp
  · rw [ht, mkTarget_iscrowd, mkTarget_boxes]; simp

/-- C1 witness: the binder-free conjuncts of the theorem applied to a
concrete one-record call that carries keypoints, and again to a call whose
record carries the keypoints key with empty rows — a program-successful
keypoints-present target. -/
theorem claim_C1_witness :
    targetK2.labels.length = targetK2.boxes.length ∧
    targetK2.area.length = targetK2.boxes.length ∧
    targetK2.iscrowd.length = targetK2.boxes.length ∧
    targetKZ.labels.length = targetKZ.boxes.length ∧
    targetKZ.area.length = targetKZ.boxes.length :=
  have htotal :=
    claim_C1_uniform_lengths false 800 600 7 [annoK2] targetK2 (by decide)
  have hz :=
    claim_C1_uniform_lengths false 800 600 7 [annoKZ] targetKZ (by decide)
  ⟨htotal.1, htotal.2.1, htotal.2.2.1, hz.1, hz.2.1⟩

/-- C2: every box of a successful call satisfies 0 ≤ x1 < x2 ≤ w and
0 ≤ y1 < y2 ≤ h: coordinates are clamped to the image bounds and degenerate
boxes are filtered out, never emitted. -/
theorem claim_C2_box_bounds (rm : Bool) (w h : ℕ) (iid : ℤ)
    (anno : List Anno) (t : Target)
    (hok : convertCall rm w h iid anno = .ok t)
    (b : ℚ × ℚ × ℚ × ℚ) (hb : b ∈ t.boxes) :
    0 ≤ b.1 ∧ b.1 < b.2.2.1 ∧ b.2.2.1 ≤ (w : ℚ) ∧
    0 ≤ b.2.1 ∧ b.2.1 < b.2.2.2 ∧ b.2.2.2 ≤ (h : ℚ) := by
  obtain ⟨m?, k?, -, -, rfl⟩ := convertCall_ok_elim hok
  rw [mkTarget_boxes] at hb
  obtain ⟨o, ho, rfl⟩ := List.mem_map.mp hb
  have hs : survives w h o = true := List.of_mem_filter ho
  unfold survives keepPred at hs
  simp only [Bool.and_eq_true, decide_eq_true_eq] at hs
  simp only [convertBox] at hs ⊢
  exact ⟨lo_le_clamp _ (Nat.cast_nonneg w), hs.2, clamp_le_hi _ _ _,
         lo_le_clamp _ (Nat.cast_nonneg h), hs.1, clamp_le_hi _ _ _⟩

/-- C2 witness: the bounds at the concrete clamped box of annoEx2 on the
800 by 600 image. -/
theorem claim_C2_witness :
    (0 : ℚ) ≤ 795 ∧ (795 : ℚ) < 800 ∧ (800 : ℚ) ≤ ((800 : ℕ) : ℚ) ∧
    (0 : ℚ) ≤ 0 ∧ (0 : ℚ) < 50 ∧ (50 : ℚ) ≤ ((600 : ℕ) : ℚ) :=
  claim_C2_box_bounds false 800 600 1 [annoEx2] targetEx2 (by decide)
    (795, 0, 800, 50) (by decide)

/-- C4: records whose iscrowd is present and truthy are dropped, and a list
containing only such records (or no records at all) yields the empty target —
zero-length boxes, labels, area and iscrowd — rather than an error. -/
theorem claim_C4_crowd_empty (rm : Bool) (w h : ℕ) (iid : ℤ)
    (anno : List Anno)
    (hcrowd : ∀ o ∈ anno, ¬(o.iscrowd = none ∨ o.iscrowd = some 0)) :
    convertCall rm w h iid anno = .ok (emptyTarget rm w h iid) := by
  have hnil : crowdFilter anno = [] := by
    apply List.filter_eq_nil_iff.mpr
    intro o ho
    simp only [decide_eq_true_eq]
    exact hcrowd o ho
  unfold convertCall
  rw [hnil]
  cases rm <;> rfl

/-- C4 witness: a single crowd record with masks requested. -/
theorem claim_C4_witness :
    convertCall true 640 480 5 [annoCrowd] = .ok (emptyTarget true 640 480 5) :=
  claim_C4_crowd_empty true 640 480 5 [annoCrowd] (by decide)

/-- C5 (amended): in a successful call the masks key is present iff
return_masks is true, and the keypoints key is present iff the crowd-filtered
annotation list is non-empty and its FIRST record carries the keypoints key
(the code consults only anno[0], not every record); any keypoint stack of a
call with no surviving object is empty; and whenever keypoints are present
with well-formed rows (rectangular, length divisible by 3 — the program's own
success conditions) and zero surviving objects, the call succeeds outright,
producing the empty keypoint stack without a reshaping error. -/
theorem claim_C5_optional_keys (rm : Bool) (w h : ℕ) (iid : ℤ)
    (anno : List Anno) (t : Target)
    (hok : convertCall rm w h iid anno = .ok t) :
    t.masks.isSome = rm ∧
    t.keypoints.isSome = headHasKps (crowdFilter anno) ∧
    (t.boxes = [] → ∀ ks, t.keypoints = some ks → ks = []) ∧
    (∀ anno2 : List Anno, ∀ rows : List (List ℚ),
      headHasKps (crowdFilter anno2) = true →
      getKps (crowdFilter anno2) = .ok rows →
      (∀ r ∈ rows, ∀ r2 ∈ rows, r.length = r2.length) →
      (∀ r ∈ rows, r.length % 3 = 0) →
      (∀ o ∈ crowdFilter anno2, survives w h o = false) →
      ∃ t2, convertCall false w h iid anno2 = .ok t2 ∧
        t2.keypoints = some [] ∧ t2.boxes = []) := by
  obtain ⟨m?, k?, hm, hk, ht⟩ := convertCall_ok_elim hok
  refine ⟨?_, ?_, ?_, ?_⟩
  · rw [ht, mkTarget_masks, optionIsSomeMap]
    exact masksStage_isSome hm
  · rw [ht, mkTarget_keypoints, optionIsSomeMap]
    exact kpsStage_isSome hk
  · intro hempty ks hks
    have hlen := convertCall_kps_length hok ks hks
    rw [hempty] at hlen
    exact List.length_eq_zero.mp hlen
  · intro anno2 rows hhead hrows hrect hdiv hdead
    have hview : viewKps rows = .ok (rows.map chunk3) := viewKps_ok rows hrect hdiv
    have hkps : kpsStage (crowdFilter anno2) = .ok (some (rows.map chunk3)) := by
      unfold kpsStage
      rw [if_pos hhead]
      simp only [hrows, hview]
    have hmasks : masksStage false (crowdFilter anno2) w h = .ok none := rfl
    have hcall : convertCall false w h iid anno2
        = .ok (mkTarget w h iid (crowdFilter anno2) none
            (some (rows.map chunk3))) := by
      unfold convertCall
      simp only [hmasks, hkps]
    refine ⟨_, hcall, ?_, ?_⟩
    · rw [mkTarget_keypoints, Option.map_some']
      congr 1
      apply applyKeep_all_false
      intro k hk2
      rw [List.map_map] at hk2
      obtain ⟨o, ho, rfl⟩ := List.mem_map.mp hk2
      exact hdead o ho
    · rw [mkTarget_boxes]
      have hfil : (crowdFilter anno2).filter (survives w h) = [] := by
        apply List.filter_eq_nil_iff.mpr
        intro o ho
        simp [hdead o ho]
      rw [hfil]
      rfl

/-- C5 counterexample: in [annoK1, annoK2] the second record survives the
crowd filter and carries keypoints, yet the returned target has no keypoints
key, because only the first record is consulted. -/
theorem claim_C5_counterexample :
    annoK2.keypoints.isSome = true ∧
    annoK2 ∈ crowdFilter [annoK1, annoK2] ∧
    (convertCall false 800 600 1 [annoK1, annoK2]).map (fun t => t.keypoints)
      = .ok none := by decide

/-- C5 witness: the amended theorem at a call whose first record carries
keypoints, plus its no-reshaping-error conjunct instantiated at the concrete
zero-survivor record annoKZ, whose empty keypoint rows the program handles
successfully. -/
theorem claim_C5_witness :
    targetK2.masks.isSome = false ∧
    targetK2.keypoints.isSome = headHasKps (crowdFilter [annoK2]) ∧
    convertCall false 800 600 7 [annoKZ] = .ok targetKZ ∧
    targetKZ.keypoints = some [] ∧ targetKZ.boxes = [] := by
  have htotal :=
    claim_C5_optional_keys false 800 600 7 [annoK2] targetK2 (by decide)
  obtain ⟨t2, hcall, hkps, hboxes⟩ :=
    htotal.2.2.2 [annoKZ] [[]] (by decide) (by decide) (by decide) (by decide)
      (by decide)
  have ht2 : t2 = targetKZ := by
    have hconcrete : convertCall false 800 600 7 [annoKZ] = .ok targetKZ := by
      decide
    rw [hcall] at hconcrete
    exact Except.ok.inj hconcrete
  subst ht2
  exact ⟨htotal.1, htotal.2.1, hcall, hkps, hboxes⟩

/-- C6: the end-to-end example — an 800 by 600 image with the single
annotation bbox [100, 50, 200, 150], category_id 3, iscrowd 0, area 30000
yields boxes [[100, 50, 300, 200]], labels [3], area [30000], iscrowd [0]
and orig_size = size = (600, 800); and for bbox [795, 0, 50, 50] on the same
image, x2 = 845 is clamped to 800. -/
theorem claim_C6_example :
    convertCall false 800 600 1 [annoEx1] = .ok targetEx1 ∧
    annoEx1.bbox = (100, 50, 200, 150) ∧ annoEx1.category_id = 3 ∧
    annoEx1.iscrowd = some 0 ∧ annoEx1.area = 30000 ∧
    targetEx1.boxes = [(100, 50, 300, 200)] ∧ targetEx1.labels = [3] ∧
    targetEx1.area = [30000] ∧ targetEx1.iscrowd = [0] ∧
    targetEx1.orig_size = (600, 800) ∧ targetEx1.size = (600, 800) ∧
    (795 : ℚ) + 50 = 845 ∧ clamp 845 0 800 = 800 ∧
    (convertCall false 800 600 1 [annoEx2]).map (fun t => t.boxes)
      = .ok [(795, 0, 800, 50)] := by decide

/-- C7: make_coco_transforms returns a pipeline exactly for the mode strings
train and val, and raises ValueError for every other mode string — it never
returns normally on an unknown mode. -/
theorem claim_C7_modes (s : String) :
    (s = "train" → make_coco_transforms s = .ok trans_train) ∧
    (s = "val" → make_coco_transforms s = .ok trans_val) ∧
    (s ≠ "train" → s ≠ "val" →
      make_coco_transforms s = .error .valueError) := by
  refine ⟨fun hs => ?_, fun hs => ?_, fun h1 h2 => ?_⟩
  · rw [hs]; rfl
  · rw [hs]; rfl
  · unfold make_coco_transforms
    rw [if_neg h1, if_neg h2]

/-- C7 witness: the theorem at the known mode train and the unknown mode
test. -/
theorem claim_C7_witness :
    make_coco_transforms "train" = .ok trans_train ∧
    make_coco_transforms "test" = .error .valueError :=
  ⟨(claim_C7_modes "train").1 rfl,
   (claim_C7_modes "test").2.2 (by decide) (by decide)⟩

/-- C8: the train pipeline is, in this fixed order, vertical flip p=1/2,
horizontal flip p=1/2, sharpen p=1/2, brightness/contrast p=2/5, color
jitter p=7/10, gamma p=1/2, Gaussian noise p=1/2, CLAHE p=1/2, followed by
the entire val pipeline as the terminal stage; the val pipeline is resize to
640 by 640, per-channel mean/std normalization and tensor conversion, and
contains no random stage. -/
theorem claim_C8_pipelines :
    make_coco_transforms "train" = .ok trans_train ∧
    trans_train.stages =
      [.verticalFlip (1/2), .horizontalFlip (1/2),
       .sharpen (3/10) (3/10) (1/2),
       .randomBrightnessContrast (3/20) (3/20) (2/5),
       .colorJitter (7/10) (1/100) 3 (-(3/10)) (3/10) 1 5 1 (3/2),
       .randomGamma 80 120 (1/2), .gaussNoise 1 30 0 (1/2), .clahe (1/2),
       .compose trans_val.stages] ∧
    make_coco_transforms "val" = .ok trans_val ∧
    trans_val.stages =
      [.resize 640 640,
       .normalize [485/1000, 456/1000, 406/1000]
         [229/1000, 224/1000, 225/1000],
       .toTensorV2] ∧
    isRandomList trans_val.stages = false :=
  ⟨rfl, rfl, rfl, rfl, rfl⟩

/-- C3 counterexample: with no transform pipeline supplied the adapter
returns the prepared corner-format boxes unchanged, which differ from their
center-size re-encoding divided by 640 — so the re-encoding is not performed
on every successful call. -/
theorem claim_C3_counterexample :
    (getitem dsNone 0).map (fun p => p.2.boxes) = .ok [(100, 50, 300, 200)] ∧
    [((100 : ℚ), 50, 300, 200)]
      ≠ [div640 (box_xyxy_to_cxcywh (100, 50, 300, 200))] := by decide

/-- C3 (amended): whenever a transform pipeline was supplied and the indexed
call succeeds, the returned boxes are exactly the pipeline's output boxes
re-encoded from corner format to center-size format and divided by 640, and
the labels are the truncated fifth column; with transforms equal to None the
prepared target is returned unchanged. -/
theorem claim_C3_reencode (ds : CocoDetectionT) (tf : TransformFn) (idx : ℕ)
    (e : CocoEntry) (t0 : Target) (img : Image) (t : Target)
    (htr : ds.transforms = some tf)
    (hent : ds.entries.get? idx = some e)
    (ht0 : convertCall ds.return_masks e.img.width e.img.height e.id e.anns
      = .ok t0)
    (hok : getitem ds idx = .ok (img, t)) :
    t.boxes = ((tf e.img (hstack5 t0.boxes t0.labels)).2).map
      (fun r => div640 (box_xyxy_to_cxcywh (r.1, r.2.1, r.2.2.1, r.2.2.2.1))) ∧
    t.labels = ((tf e.img (hstack5 t0.boxes t0.labels)).2).map
      (fun r => truncQ r.2.2.2.2) := by
  unfold getitem at hok
  simp only [hent, ht0, htr] at hok
  split at hok
  · cases hok
  next img2 outB heq =>
    cases hok
    rw [heq]
    exact ⟨rfl, rfl⟩

/-- C3 witness: the amended theorem at the identity pipeline run on the
one-entry dataset dsTf. -/
theorem claim_C3_witness :
    targetTf.boxes
      = ((tfId imgEx (hstack5 targetEx1.boxes targetEx1.labels)).2).map
          (fun r =>
            div640 (box_xyxy_to_cxcywh (r.1, r.2.1, r.2.2.1, r.2.2.2.1))) ∧
    targetTf.labels
      = ((tfId imgEx (hstack5 targetEx1.boxes targetEx1.labels)).2).map
          (fun r => truncQ r.2.2.2.2) :=
  claim_C3_reencode dsTf tfId 0 ⟨imgEx, [annoEx1], 1⟩ targetEx1 imgEx targetTf
    rfl rfl (by decide) (by decide)

/-- C9: for every surviving object the output area is the source record's
area field (a passthrough, not recomputed from the clamped box) and the
output iscrowd is the record's iscrowd defaulting to 0 when absent; both
arrays, like boxes and labels, are the image of the same survivor list, so
they are filtered by the same keep-mask. -/
theorem claim_C9_passthrough (rm : Bool) (w h : ℕ) (iid : ℤ)
    (anno : List Anno) (t : Target)
    (hok : convertCall rm w h iid anno = .ok t) :
    t.area = (survivors w h anno).map (fun o => o.area) ∧
    t.iscrowd = (survivors w h anno).map (fun o => o.iscrowd.getD 0) ∧
    t.boxes = (survivors w h anno).map (fun o => convertBox o.bbox w h) ∧
    t.labels = (survivors w h anno).map (fun o => o.category_id) := by
  obtain ⟨m?, k?, -, -, rfl⟩ := convertCall_ok_elim hok
  exact ⟨mkTarget_area w h iid _ m? k?, mkTarget_iscrowd w h iid _ m? k?,
         mkTarget_boxes w h iid _ m? k?, mkTarget_labels w h iid _ m? k?⟩

/-- C9 witness: the theorem at the concrete end-to-end example. -/
theorem claim_C9_witness :
    targetEx1.area = (survivors 800 600 [annoEx1]).map (fun o => o.area) ∧
    targetEx1.iscrowd
      = (survivors 800 600 [annoEx1]).map (fun o => o.iscrowd.getD 0) ∧
    targetEx1.boxes
      = (survivors 800 600 [annoEx1]).map (fun o => convertBox o.bbox 800 600) ∧
    targetEx1.labels
      = (survivors 800 600 [annoEx1]).map (fun o => o.category_id) :=
  claim_C9_passthrough false 800 600 1 [annoEx1] targetEx1 (by decide)

/-- C10: for every image_set other than train and val, build fails at the
PATHS dict lookup with KeyError — not with the ValueError the factory raises —
and no run of build can ever surface that ValueError. -/
theorem claim_C10_build_keyerror (path : String) (rm : Bool) (s : String)
    (h1 : s ≠ "train") (h2 : s ≠ "val") :
    build path true rm s = .error .keyError ∧
    make_coco_transforms s = .error .valueError ∧
    (∀ p : String, ∀ re rm2 : Bool, ∀ s2 : String,
      build p re rm2 s2 ≠ .error .valueError) := by
  refine ⟨?_, ?_, ?_⟩
  · simp [build, PATHS, h1, h2]
  · unfold make_coco_transforms
    rw [if_neg h1, if_neg h2]
  · intro p re rm2 s2 hc
    unfold build at hc
    cases re with
    | false => simp at hc
    | true =>
      simp only [if_true] at hc
      by_cases ht : s2 = "train"
      · subst ht; simp [PATHS, make_coco_transforms] at hc
      · by_cases hv : s2 = "val"
        · subst hv; simp [PATHS, make_coco_transforms] at hc
        · simp [PATHS, ht, hv] at hc

/-- C10 witness: the binder-free conjuncts instantiated at the unknown mode
string test. -/
theorem claim_C10_witness :
    build "/data/coco" true false "test" = .error .keyError ∧
    make_coco_transforms "test" = .error .valueError :=
  have htotal :=
    claim_C10_build_keyerror "/data/coco" false "test" (by decide) (by decide)
  ⟨htotal.1, htotal.2.1⟩

end Coco
